import Mathlib

/-!
Shallow embedding of `src/models/zcredit_transaction.py` (Z-Credit Payment
Module).  Python strings are Lean `String`s, the Float `amount` is modelled
as `ℚ` (only exact threshold comparisons occur in the source), exceptions
are `Except`/explicit outcome values, and the Odoo record is an explicit
`Txn` state threaded through the functions.  The record store that
`search` queries is passed in as an explicit list of `DbRec`.
-/

instance {α β : Type} [DecidableEq α] [DecidableEq β] : DecidableEq (Except α β) := fun x y =>
  match x, y with
  | Except.error a, Except.error b =>
    if h : a = b then Decidable.isTrue (by rw [h])
    else Decidable.isFalse (by intro he; injection he; contradiction)
  | Except.error _, Except.ok _ => Decidable.isFalse (by intro h; cases h)
  | Except.ok _, Except.error _ => Decidable.isFalse (by intro h; cases h)
  | Except.ok a, Except.ok b =>
    if h : a = b then Decidable.isTrue (by rw [h])
    else Decidable.isFalse (by intro he; injection he; contradiction)

/-- The `status` selection field: draft / success / failed / pending. -/
inductive Status
  | draft
  | success
  | failed
  | pending
deriving DecidableEq, BEq, Repr

/-- The `transaction_type` selection field: sale / authorize / refund. -/
inductive TxnType
  | sale
  | authorize
  | refund
deriving DecidableEq, BEq, Repr

/-- The zcredit.transaction record's fields (those the core reads/writes). -/
structure Txn where
  name : String
  terminal_number : String
  terminal_password : String
  card_number : String
  expiry_date : String
  cvv : String
  cardholder_name : String
  amount : ℚ
  transaction_type : TxnType
  result : String
  status : Status
deriving DecidableEq, Repr

/-- A stored record as seen by `self.search` in `_check_duplicate_transaction`:
only the fields the search domain touches. -/
structure DbRec where
  id : Nat
  name : String
  status : Status
deriving DecidableEq, Repr

/-- The mock API response dict.  `Success`, `Code`, `Message` appear in every
failure dict; the success dict adds `ZCreditID`, `Amount`, `Type`,
`Timestamp`.  `message` is an `Option` to model `dict.get('Message', dflt)`. -/
structure ApiResult where
  success : Bool
  code : String
  message : Option String
  zcreditId : Option String
  amount : Option ℚ
  ttype : Option String
  timestamp : Option String
deriving DecidableEq, Repr

/-- The `ir.actions.client` display_notification payload returned to the UI. -/
structure Notif where
  message : String
  ntype : String
  sticky : Bool
deriving DecidableEq, Repr

/-- Python `card_number.replace(' ', '')`: drop every space character. -/
def stripSpaces (s : String) : String :=
  String.mk (s.toList.filter (fun c => c ≠ ' '))

/-- The whitespace class of Python `str.strip` (space, tab, newline,
carriage return, vertical tab, form feed). -/
def pyIsSpace (c : Char) : Bool :=
  c == ' ' || c == '\t' || c == '\n' || c == '\r' || c.toNat == 11 || c.toNat == 12

/-- Python `str.strip()`: drop leading and trailing whitespace. -/
def pyStrip (s : String) : String :=
  String.mk (((s.toList.dropWhile pyIsSpace).reverse.dropWhile pyIsSpace).reverse)

/-- Python `str.isdigit` restricted to ASCII digits (all inputs in this
development are ASCII). -/
def allDigits (s : String) : Bool :=
  s.toList.all Char.isDigit

/-- Does `n` occur as a prefix of `h`? (helper for substring tests). -/
def startsList : List Char → List Char → Bool
  | _, [] => true
  | [], _ :: _ => false
  | a :: h, b :: n => a == b && startsList h n

/-- Does `n` occur as a contiguous sublist of `h`? -/
def hasSub (n : List Char) : List Char → Bool
  | [] => n.isEmpty
  | c :: t => startsList (c :: t) n || hasSub n t

/-- Substring test on strings (Python `needle in hay`). -/
def strHas (hay needle : String) : Bool :=
  hasSub needle.toList hay.toList

/-- The `999999.99` ceiling in `_check_amount`, as the reduced fraction
99999999/100 (see `maxAmount_eq`). -/
def maxAmount : ℚ := Rat.mk' 99999999 100 (by norm_num) (by norm_num)

/-- `_check_amount`: amount must be positive and at most the ceiling.
Raising `ValidationError(msg)` is modelled as `Except.error msg`. -/
def checkAmount (a : ℚ) : Except String Unit :=
  if a ≤ 0 then Except.error "Amount must be a positive number."
  else if a > maxAmount then Except.error "Amount exceeds maximum allowed limit."
  else Except.ok ()

/-- `_check_card_number`: strip spaces, then length 13..19 and digits only. -/
def checkCardNumber (cardNumber : String) : Except String Unit :=
  let card := stripSpaces cardNumber
  if ¬ (13 ≤ card.length ∧ card.length ≤ 19) then
    Except.error "Card number must be between 13-19 digits."
  else if ¬ allDigits card then
    Except.error "Card number must contain only digits."
  else Except.ok ()

/-- Core of `_check_expiry_date` on the character list of the stripped
expiry string: regex `^\d\x7b2\x7d/\d\x7b2\x7d$`, month range, and the
expired test against the current year/month (passed in, as `datetime.now()`
is an effect).  `2000 + year` models the 20YY assumption. -/
def checkExpiryChars (l : List Char) (cy cm : Nat) : Except String Unit :=
  match l with
  | [a, b, s, c, d] =>
    if a.isDigit && b.isDigit && (s == '/') && c.isDigit && d.isDigit then
      let month := (a.toNat - 48) * 10 + (b.toNat - 48)
      let year := (c.toNat - 48) * 10 + (d.toNat - 48)
      if ¬ (1 ≤ month ∧ month ≤ 12) then
        Except.error "Month must be between 01 and 12."
      else
        let fullYear := 2000 + year
        if fullYear < cy ∨ (fullYear = cy ∧ month < cm) then
          Except.error ("Card has expired. Expiry date: " ++ String.mk l)
        else Except.ok ()
    else Except.error "Expiry date must be in MM/YY format (e.g., 12/25)."
  | _ => Except.error "Expiry date must be in MM/YY format (e.g., 12/25)."

/-- `_check_expiry_date`: Python first does `expiry_date.strip()`. -/
def checkExpiryDate (e : String) (cy cm : Nat) : Except String Unit :=
  checkExpiryChars (pyStrip e).toList cy cm

/-- `_check_cvv`: after trimming, exactly 3 or 4 digits. -/
def checkCvv (cvv : String) : Except String Unit :=
  let c := pyStrip cvv
  if (c.length = 3 ∨ c.length = 4) ∧ allDigits c then Except.ok ()
  else Except.error "CVV must be 3 or 4 digits."

/-- Character class of the cardholder-name regex `[a-zA-Z\s\-\.]`. -/
def nameChar (c : Char) : Bool :=
  c.isAlpha || c == ' ' || c == '\t' || c == '\n' || c == '\r' ||
  c.toNat == 11 || c.toNat == 12 || c == '-' || c == '.'

/-- `_check_cardholder_name`: trimmed, non-empty, length 3..100, characters
restricted to letters, whitespace, hyphens and dots. -/
def checkCardholderName (nm : String) : Except String Unit :=
  let n := pyStrip nm
  if n = "" then Except.error "Cardholder name is required."
  else if n.length < 3 then
    Except.error "Cardholder name must be at least 3 characters."
  else if n.length > 100 then
    Except.error "Cardholder name must not exceed 100 characters."
  else if ¬ n.toList.all nameChar then
    Except.error "Cardholder name contains invalid characters. Only letters, spaces, hyphens, and dots are allowed."
  else Except.ok ()

/-- The validator: Odoo fires the `@api.constrains` methods one after the
other (declaration order in the file) and the first `ValidationError`
raised aborts the write, so at most one error ever surfaces. -/
def validate (s : Txn) (cy cm : Nat) : Except String Unit :=
  match checkAmount s.amount with
  | Except.error m => Except.error m
  | Except.ok _ =>
  match checkCardNumber s.card_number with
  | Except.error m => Except.error m
  | Except.ok _ =>
  match checkExpiryDate s.expiry_date cy cm with
  | Except.error m => Except.error m
  | Except.ok _ =>
  match checkCvv s.cvv with
  | Except.error m => Except.error m
  | Except.ok _ => checkCardholderName s.cardholder_name

/-- `_check_duplicate_transaction`'s search domain: same `name`, status not
draft, and — crucially — `id != self.id`. -/
def checkDuplicate (db : List DbRec) (selfId : Nat) (nm : String) : Bool :=
  db.any fun r => r.name == nm && !(r.status == Status.draft) && !(r.id == selfId)

/-- The message of the ValidationError raised by the duplicate check. -/
def dupMessage (nm : String) : String :=
  "Transaction " ++ nm ++ " was already processed. Duplicate transactions are not allowed."

/-- `_simulate_card_validation`'s stolen/lost card list. -/
def stolenCards : List String := ["4532015112830366", "5425233010103442"]

/-- The code-205 decline dict built in `_simulate_card_validation`. -/
def stolenCardResult : ApiResult :=
  ⟨false, "205", some "Card Declined - Do Not Honor (Card is reported stolen/lost)", none, none, none, none⟩

/-- The code-206 decline dict built in `_simulate_card_validation`. -/
def insufficientFundsResult : ApiResult :=
  ⟨false, "206", some "Insufficient Funds - Amount exceeds credit limit", none, none, none, none⟩

/-- The code-207 decline dict built in `_simulate_card_validation`. -/
def refundLimitResult : ApiResult :=
  ⟨false, "207", some "Transaction Not Allowed - Refund limit exceeded", none, none, none, none⟩

/-- `_simulate_card_validation`: stolen card, credit limit, refund cap. -/
def simulateCardValidation (s : Txn) : Option ApiResult :=
  if stolenCards.contains s.card_number then some stolenCardResult
  else if s.amount > 5000 then some insufficientFundsResult
  else if s.transaction_type == TxnType.refund && s.amount > 1000 then some refundLimitResult
  else none

/-- The code-106 dict built in `action_test_transaction` (card too short). -/
def invalidCardResult : ApiResult :=
  ⟨false, "106", some "Invalid Card Format", none, none, none, none⟩

/-- The code-101 dict built in `action_test_transaction` (bad credentials). -/
def authFailedResult : ApiResult :=
  ⟨false, "101", some "Authentication Failed: Invalid Terminal ID or Password", none, none, none, none⟩

/-- The code-102 dict built in `action_test_transaction` (bad amount). -/
def invalidAmountResult : ApiResult :=
  ⟨false, "102", some "Invalid Amount", none, none, none, none⟩

/-- `self.transaction_type.upper()` on the selection values. -/
def typeUpper : TxnType → String
  | TxnType.sale => "SALE"
  | TxnType.authorize => "AUTHORIZE"
  | TxnType.refund => "REFUND"

/-- The approval dict built in the success branch; `ts` stands for
`fields.Datetime.now()`. -/
def successResult (s : Txn) (ts : String) : ApiResult :=
  ⟨true, "000", some "Transaction Approved", some ("TRX-" ++ s.name),
   some s.amount, some (typeUpper s.transaction_type), some ts⟩

/-- Auxiliary rendering of one optional dict entry. -/
def optField (k : String) (v : Option String) : String :=
  match v with
  | some m => ", " ++ k ++ ": " ++ m
  | none => ""

/-- Rendering of `json.dumps(api_result, indent=2, default=str)`.  The exact
Python formatting is immaterial to every claim (only which fields appear and
that the text is later overwritten matter), so a canonical key:value
rendering is used. -/
def dumpApiResult (r : ApiResult) : String :=
  "Success: " ++ (if r.success then "true" else "false") ++
  ", Code: " ++ r.code ++
  optField "Message" r.message ++
  optField "ZCreditID" r.zcreditId ++
  (match r.amount with
   | some a => ", Amount: " ++ toString a.num ++ "/" ++ toString a.den
   | none => "") ++
  optField "Type" r.ttype ++
  optField "Timestamp" r.timestamp

/-- `_return_error(title, message, status)`: writes
`result = "title: message"`, sets the status, and returns a sticky danger
notification whose text is `" title: message"` (note the leading space in
the f-string of the source). -/
def returnError (title message : String) (st : Status) (s : Txn) : Txn × Notif :=
  ({ s with result := title ++ ": " ++ message, status := st },
   ⟨" " ++ title ++ ": " ++ message, "danger", true⟩)

/-- `_return_success(message)`: a non-sticky success notification. -/
def returnSuccessNotif (message : String) : Notif :=
  ⟨message, "success", false⟩

/-- `_handle_api_response`: write the dumped response into `result`; if
`Success` is truthy and the HTTP status is 200 or 201, mark success,
otherwise mark failed via `_return_error('Transaction Failed', Message)`
(which overwrites `result` again). -/
def handleApiResponse (r : ApiResult) (statusCode : Nat) (s : Txn) : Txn × Notif :=
  let s1 : Txn := { s with result := dumpApiResult r }
  if r.success && (statusCode == 200 || statusCode == 201) then
    ({ s1 with status := Status.success },
     returnSuccessNotif (r.message.getD "Transaction approved"))
  else
    returnError "Transaction Failed" (r.message.getD "Unknown error occurred") Status.failed s1

/-- `TERMINAL_OK` in `action_test_transaction`. -/
def terminalOk (s : Txn) : Prop :=
  s.terminal_number = "0882016016" ∧ s.terminal_password = "Z0882016016"

instance (s : Txn) : Decidable (terminalOk s) := by
  unfold terminalOk; infer_instance

/-- How the `try` body of `action_test_transaction` resolves: rejected by
the duplicate guard (a ValidationError that the `except` clause catches),
stopped by the required-field checks, or an API exchange handed to
`_handle_api_response` together with its HTTP status code.  A `gateway`
outcome is the mock stand-in for a network exchange with the processor. -/
inductive Outcome
  | validationRejected : String → Outcome
  | missingFields : String → Outcome
  | gateway : ApiResult → Nat → Outcome
deriving DecidableEq, Repr

/-- The decision structure of `action_test_transaction`'s `try` body, in
source order: duplicate guard, required-field checks, simulation checks,
card-length check, terminal credentials, amount, success. -/
def tryBody (db : List DbRec) (selfId : Nat) (ts : String) (s : Txn) : Outcome :=
  if checkDuplicate db selfId s.name then
    Outcome.validationRejected (dupMessage s.name)
  else if s.terminal_number = "" ∨ s.terminal_password = "" then
    Outcome.missingFields "Terminal number and password are required."
  else if s.cardholder_name = "" then
    Outcome.missingFields "Cardholder name is required."
  else
    match simulateCardValidation s with
    | some r => Outcome.gateway r 400
    | none =>
      if s.card_number.length < 15 then Outcome.gateway invalidCardResult 400
      else if ¬ terminalOk s then Outcome.gateway authFailedResult 401
      else if s.amount ≤ 0 then Outcome.gateway invalidAmountResult 400
      else Outcome.gateway (successResult s ts) 200

/-- `action_test_transaction`: run the try body and apply the matching
handler.  The duplicate guard's ValidationError is caught by
`except ValidationError` and turned into `_return_error('Validation Error',
str(e))`; the required-field branches call `_return_error` directly. -/
def actionTestTransaction (db : List DbRec) (selfId : Nat) (ts : String) (s : Txn) : Txn × Notif :=
  match tryBody db selfId ts s with
  | Outcome.validationRejected msg => returnError "Validation Error" msg Status.failed s
  | Outcome.missingFields msg => returnError "Missing Required Fields" msg Status.failed s
  | Outcome.gateway r sc => handleApiResponse r sc s

/-- The exception classes distinguished by the `except` clauses of
`action_test_transaction` (lines 264-299). -/
inductive PyExc
  | validationError : String → PyExc
  | timeout : PyExc
  | connectionError : PyExc
  | requestException : String → PyExc
  | jsonDecodeError : PyExc
  | otherError : String → PyExc
deriving DecidableEq, Repr

/-- The `except` dispatch of `action_test_transaction`: every exception
raised inside the `try` body is translated into `_return_error` with the
title, message and status written in the source; in particular a
`requests.exceptions.Timeout` yields status `pending`.  (The mock body
itself performs no live network call; this models the handlers as written.) -/
def handleException (e : PyExc) (s : Txn) : Txn × Notif :=
  match e with
  | PyExc.validationError msg => returnError "Validation Error" msg Status.failed s
  | PyExc.timeout =>
      returnError "API Request Timeout"
        "Server did not respond in time. Transaction status is pending."
        Status.pending s
  | PyExc.connectionError =>
      returnError "Connection Error"
        "Cannot reach API server. Please check your internet connection."
        Status.failed s
  | PyExc.requestException msg =>
      returnError "Request Error" ("An error occurred during the request: " ++ msg)
        Status.failed s
  | PyExc.jsonDecodeError =>
      returnError "Invalid API Response"
        "Server returned invalid JSON. Please contact support."
        Status.failed s
  | PyExc.otherError msg =>
      returnError "Unexpected Error" ("An unexpected error occurred: " ++ msg)
        Status.failed s

/-- Spec-side acceptance of an expiry character list, written from the
spec's words: exactly two digits, a slash, two digits; month in [1,12];
resolved year 2000+YY with (year, month) not strictly before the current
(year, month). -/
def expiryAcceptChars (l : List Char) (cy cm : Nat) : Bool :=
  match l with
  | [a, b, s, c, d] =>
    let m := (a.toNat - 48) * 10 + (b.toNat - 48)
    let y := (c.toNat - 48) * 10 + (d.toNat - 48)
    a.isDigit && b.isDigit && (s == '/') && c.isDigit && d.isDigit &&
    (decide (1 ≤ m) && decide (m ≤ 12)) &&
    !(decide (2000 + y < cy) || (decide (2000 + y = cy) && decide (m < cm)))
  | _ => false

/-- Spec-side exact-format test of a raw expiry string (no trimming), from
the claim's words "exactly two digits, a slash, two digits". -/
def expirySpecFormat (t : String) : Bool :=
  match t.toList with
  | [a, b, s, c, d] => a.isDigit && b.isDigit && (s == '/') && c.isDigit && d.isDigit
  | _ => false

/-- Spec-side acceptance of a raw expiry string (no trimming), from the
spec's words. -/
def expirySpecAccept (t : String) (cy cm : Nat) : Bool :=
  expiryAcceptChars t.toList cy cm

/-- A record that already reached Success (with valid data and the exact
mock credentials) on which the submission action is invoked a second time. -/
def rC1 : Txn :=
  { name := "TRX-001", terminal_number := "0882016016", terminal_password := "Z0882016016",
    card_number := "4111111111111111", expiry_date := "12/30", cvv := "123",
    cardholder_name := "John Doe", amount := 100, transaction_type := TxnType.sale,
    result := "Success: true, Code: 000, Message: Transaction Approved",
    status := Status.success }

/-- The store at the time of `rC1`'s re-submission: only the record itself. -/
def dbC1 : List DbRec := [⟨1, "TRX-001", Status.success⟩]

/-- A record in the terminal status Failed that is re-submitted with valid
data and correct credentials. -/
def rC2 : Txn :=
  { name := "TRX-002", terminal_number := "0882016016", terminal_password := "Z0882016016",
    card_number := "4111111111111111", expiry_date := "12/30", cvv := "123",
    cardholder_name := "John Doe", amount := 100, transaction_type := TxnType.sale,
    result := "Transaction Failed: Authentication Failed: Invalid Terminal ID or Password",
    status := Status.failed }

/-- The store at the time of `rC2`'s re-submission. -/
def dbC2 : List DbRec := [⟨1, "TRX-002", Status.failed⟩]

/-- A draft record whose reference collides with an already-resolved record
of a different id, so the duplicate guard fires. -/
def rC3 : Txn :=
  { name := "TRX-003", terminal_number := "0882016016", terminal_password := "Z0882016016",
    card_number := "4111111111111111", expiry_date := "12/30", cvv := "123",
    cardholder_name := "John Doe", amount := 100, transaction_type := TxnType.sale,
    result := "", status := Status.draft }

/-- The store holding `rC3` (id 1) and a resolved record with the same
reference (id 2). -/
def dbC3 : List DbRec := [⟨1, "TRX-003", Status.draft⟩, ⟨2, "TRX-003", Status.success⟩]

theorem maxAmount_eq : maxAmount = 99999999 / 100 := by
  rw [show maxAmount = Rat.divInt 99999999 100 from Rat.mk'_eq_divInt, Rat.divInt_eq_div]
  norm_num

/-- C1: invoking `action_test_transaction` a second time on a transaction
whose status is already Success does NOT raise the duplicate error —
`_check_duplicate_transaction` excludes the record's own id, so the guard
stays silent, a second (mock) gateway exchange is performed, and the stored
record is rewritten (here: `result` changes, since the new dump carries the
new timestamp).  This contradicts the claim and the guard's own docstring. -/
theorem duplicate_guard_misses_resubmission :
    rC1.status = Status.success ∧
    checkDuplicate dbC1 1 rC1.name = false ∧
    tryBody dbC1 1 "2026-10-12 09:00:00" rC1 =
      Outcome.gateway (successResult rC1 "2026-10-12 09:00:00") 200 ∧
    (actionTestTransaction dbC1 1 "2026-10-12 09:00:00" rC1).1.result ≠ rC1.result := by
  decide

/-- C2: a transaction in the terminal status Failed is not protected from
re-submission: running the action again with now-correct data flips the
status to Success, so terminal statuses are not preserved and the
submission is not rejected before the transition. -/
theorem terminal_status_not_preserved :
    rC2.status = Status.failed ∧
    (actionTestTransaction dbC2 1 "2026-10-12 09:00:00" rC2).1.status = Status.success := by
  decide

/-- C3 counterexample: a submission that fails with the duplicate-guard
ValidationError does not leave the record in Draft: the `except
ValidationError` handler calls `_return_error`, which sets status `failed`
and overwrites `result`. -/
theorem validation_failure_not_draft_cx :
    rC3.status = Status.draft ∧
    (actionTestTransaction dbC3 1 "2026-10-12 09:00:00" rC3).1.status = Status.failed ∧
    (actionTestTransaction dbC3 1 "2026-10-12 09:00:00" rC3).1.status ≠ Status.draft ∧
    (actionTestTransaction dbC3 1 "2026-10-12 09:00:00" rC3).1.result ≠ rC3.result := by
  decide

/-- C3 (amended): a submission that fails with a ValidationError sets the
record's status to `failed` (not Draft) and writes
`"Validation Error: <message>"` into `result`; no gateway exchange occurs
(the try body resolves as `validationRejected`, never reaching a
`gateway` outcome). -/
theorem validation_failure_sets_failed (db : List DbRec) (selfId : Nat) (ts : String) (s : Txn)
    (h : checkDuplicate db selfId s.name = true) :
    tryBody db selfId ts s = Outcome.validationRejected (dupMessage s.name) ∧
    actionTestTransaction db selfId ts s =
      ({ s with result := "Validation Error: " ++ dupMessage s.name, status := Status.failed },
       ⟨" Validation Error: " ++ dupMessage s.name, "danger", true⟩) := by
  have ht : tryBody db selfId ts s = Outcome.validationRejected (dupMessage s.name) := by
    unfold tryBody
    simp [h]
  refine ⟨ht, ?_⟩
  unfold actionTestTransaction
  rw [ht]
  rfl

/-- C3 witness: the amended statement at the concrete colliding store. -/
theorem validation_failure_sets_failed_wit :
    tryBody dbC3 1 "2026-10-12 09:00:00" rC3 = Outcome.validationRejected (dupMessage rC3.name) ∧
    actionTestTransaction dbC3 1 "2026-10-12 09:00:00" rC3 =
      ({ rC3 with result := "Validation Error: " ++ dupMessage rC3.name, status := Status.failed },
       ⟨" Validation Error: " ++ dupMessage rC3.name, "danger", true⟩) :=
  validation_failure_sets_failed dbC3 1 "2026-10-12 09:00:00" rC3 (by decide)

/-- C6: the `requests.exceptions.Timeout` handler marks the transaction
Pending (not Failed), stores the timeout diagnostic in `result`, and
returns a notification to the caller (the handler is a total function, so
no exception escapes). -/
theorem timeout_sets_pending (s : Txn) :
    (handleException PyExc.timeout s).1.status = Status.pending ∧
    (handleException PyExc.timeout s).1.result =
      "API Request Timeout: Server did not respond in time. Transaction status is pending." ∧
    strHas (handleException PyExc.timeout s).1.result "Timeout" = true ∧
    (handleException PyExc.timeout s).2 =
      ⟨" API Request Timeout: Server did not respond in time. Transaction status is pending.",
       "danger", true⟩ := by
  refine ⟨rfl, rfl, ?_, rfl⟩
  show strHas "API Request Timeout: Server did not respond in time. Transaction status is pending." "Timeout" = true
  decide

/-- A positive response as delivered to the interpreter with HTTP 201. -/
def respC4 : ApiResult :=
  ⟨true, "000", some "Transaction Approved", none, none, none, none⟩

/-- An arbitrary draft record on which the interpreter is exercised. -/
def sC4 : Txn :=
  { name := "TRX-004", terminal_number := "0882016016", terminal_password := "Z0882016016",
    card_number := "4111111111111111", expiry_date := "12/30", cvv := "123",
    cardholder_name := "John Doe", amount := 100, transaction_type := TxnType.sale,
    result := "", status := Status.draft }

/-- C4 counterexample: `_handle_api_response` also accepts HTTP 201 as a
success — the claim's criterion (status code must equal 200) would classify
this response as Failed, but the code marks it Success. -/
theorem interpreter_accepts_201_cx :
    (201 : Nat) ≠ 200 ∧
    (handleApiResponse respC4 201 sC4).1.status = Status.success := by
  decide

/-- C4 (amended): the interpreter marks the transaction Success iff the
response's `Success` flag is truthy AND the HTTP status code is 200 or 201;
in every other case it marks it Failed (timeouts never reach the
interpreter: they are handled by the exception dispatch, see
`handleException`). -/
theorem interpreter_success_criterion (r : ApiResult) (sc : Nat) (s : Txn) :
    ((handleApiResponse r sc s).1.status = Status.success ↔
      (r.success = true ∧ (sc = 200 ∨ sc = 201))) ∧
    ((handleApiResponse r sc s).1.status = Status.failed ↔
      ¬ (r.success = true ∧ (sc = 200 ∨ sc = 201))) := by
  unfold handleApiResponse returnError
  by_cases h : (r.success && (sc == 200 || sc == 201)) = true
  · rw [if_pos h]
    simp only [Bool.and_eq_true, Bool.or_eq_true, beq_iff_eq] at h
    simp [h]
  · rw [if_neg h]
    simp only [Bool.and_eq_true, Bool.or_eq_true, beq_iff_eq] at h
    simp [h]

/-- A well-formed negative processor response: code 106, message
"Invalid Card Format". -/
def respC5 : ApiResult :=
  ⟨false, "106", some "Invalid Card Format", none, none, none, none⟩

/-- An arbitrary draft record on which the decline is interpreted. -/
def sC5 : Txn :=
  { name := "TRX-005", terminal_number := "0882016016", terminal_password := "Z0882016016",
    card_number := "4111111111111111", expiry_date := "12/30", cvv := "123",
    cardholder_name := "John Doe", amount := 100, transaction_type := TxnType.sale,
    result := "", status := Status.draft }

/-- C5 counterexample: interpreting the code-106 decline marks the record
Failed, but the surfaced message is "Transaction Failed: Invalid Card
Format" — it contains the return message, yet NOT the return code "106"
(the json dump holding the code is overwritten by `_return_error`), so the
message does not have the claimed form "<returnCode>: <returnMessage>". -/
theorem decline_message_lacks_code_cx :
    (handleApiResponse respC5 200 sC5).1.status = Status.failed ∧
    (handleApiResponse respC5 200 sC5).1.result = "Transaction Failed: Invalid Card Format" ∧
    strHas (handleApiResponse respC5 200 sC5).1.result "Invalid Card Format" = true ∧
    strHas (handleApiResponse respC5 200 sC5).1.result "106" = false ∧
    strHas (handleApiResponse respC5 200 sC5).2.message "106" = false := by
  decide

/-- C5 (amended): for every non-success response the interpreter marks the
record Failed and both the stored `result` and the notification message
have the form "Transaction Failed: <returnMessage>" — they contain the
return message but not the numeric return code. -/
theorem decline_message_form (r : ApiResult) (sc : Nat) (s : Txn)
    (h : (r.success && (sc == 200 || sc == 201)) = false) :
    (handleApiResponse r sc s).1.status = Status.failed ∧
    (handleApiResponse r sc s).1.result =
      "Transaction Failed: " ++ r.message.getD "Unknown error occurred" ∧
    (handleApiResponse r sc s).2.message =
      " Transaction Failed: " ++ r.message.getD "Unknown error occurred" := by
  unfold handleApiResponse returnError
  rw [h]
  exact ⟨rfl, rfl, rfl⟩

/-- C5 witness: the amended statement at the concrete code-106 decline. -/
theorem decline_message_form_wit :
    (handleApiResponse respC5 200 sC5).1.status = Status.failed ∧
    (handleApiResponse respC5 200 sC5).1.result =
      "Transaction Failed: " ++ respC5.message.getD "Unknown error occurred" ∧
    (handleApiResponse respC5 200 sC5).2.message =
      " Transaction Failed: " ++ respC5.message.getD "Unknown error occurred" :=
  decline_message_form respC5 200 sC5 (by decide)

/-- A request violating two rules at once: non-positive amount AND a
two-digit CVV. -/
def rC7 : Txn :=
  { name := "TRX-007", terminal_number := "0882016016", terminal_password := "Z0882016016",
    card_number := "4111111111111111", expiry_date := "12/30", cvv := "12",
    cardholder_name := "John Doe", amount := 0, transaction_type := TxnType.sale,
    result := "", status := Status.draft }

/-- C7 counterexample: `rC7` violates both the amount rule and the CVV
rule, but validation reports only the amount error — the raised-exception
style stops at the first failing rule and never produces the complete
list of violations (the surfaced error does not mention the CVV). -/
theorem validator_short_circuits_cx :
    checkAmount rC7.amount = Except.error "Amount must be a positive number." ∧
    checkCvv rC7.cvv = Except.error "CVV must be 3 or 4 digits." ∧
    validate rC7 2026 10 = Except.error "Amount must be a positive number." ∧
    strHas "Amount must be a positive number." "CVV" = false := by
  decide

/-- C7 (amended): validation passes iff every individual field rule passes,
but on failure it surfaces only the FIRST failing rule's error (in the
order amount, card number, expiry, CVV, cardholder name): in particular
whenever the amount rule fails, its message is the whole report, whatever
the other fields look like. -/
theorem validator_first_error (s : Txn) (cy cm : Nat) :
    (validate s cy cm = Except.ok () ↔
      (checkAmount s.amount = Except.ok () ∧
       checkCardNumber s.card_number = Except.ok () ∧
       checkExpiryDate s.expiry_date cy cm = Except.ok () ∧
       checkCvv s.cvv = Except.ok () ∧
       checkCardholderName s.cardholder_name = Except.ok ())) ∧
    (∀ m, checkAmount s.amount = Except.error m → validate s cy cm = Except.error m) := by
  constructor
  · unfold validate
    rcases h1 : checkAmount s.amount with m1 | u1 <;> simp [h1]
    rcases h2 : checkCardNumber s.card_number with m2 | u2 <;> simp [h2]
    rcases h3 : checkExpiryDate s.expiry_date cy cm with m3 | u3 <;> simp [h3]
    rcases h4 : checkCvv s.cvv with m4 | u4 <;> simp [h4]
  · intro m hm
    unfold validate
    rw [hm]

/-- C7 witness: the amended first-error statement at the doubly-invalid
request. -/
theorem validator_first_error_wit :
    validate rC7 2026 10 = Except.error "Amount must be a positive number." :=
  (validator_first_error rC7 2026 10).2 "Amount must be a positive number." (by decide)

/-- A record with well-formed data but wrong terminal credentials. -/
def rC9 : Txn :=
  { name := "TRX-009", terminal_number := "1111111111", terminal_password := "wrongpass",
    card_number := "4111111111111111", expiry_date := "12/30", cvv := "123",
    cardholder_name := "John Doe", amount := 100, transaction_type := TxnType.sale,
    result := "", status := Status.draft }

/-- C9: once a submission passes the duplicate guard, the required-field
checks, the simulation checks and the card-length check, any credential
pair other than terminal 0882016016 / password Z0882016016 yields the
code-101 Authentication Failed exchange and status Failed; conversely a
Success status is only reachable with exactly those credentials. -/
theorem auth_requires_exact_credentials (db : List DbRec) (selfId : Nat) (ts : String) (s : Txn)
    (hdup : checkDuplicate db selfId s.name = false)
    (htn : s.terminal_number ≠ "") (htp : s.terminal_password ≠ "")
    (hch : s.cardholder_name ≠ "")
    (hsim : simulateCardValidation s = none)
    (hlen : 15 ≤ s.card_number.length) :
    (¬ terminalOk s →
      tryBody db selfId ts s = Outcome.gateway authFailedResult 401 ∧
      (actionTestTransaction db selfId ts s).1.status = Status.failed ∧
      authFailedResult.code = "101" ∧
      (actionTestTransaction db selfId ts s).1.result =
        "Transaction Failed: Authentication Failed: Invalid Terminal ID or Password") ∧
    ((actionTestTransaction db selfId ts s).1.status = Status.success → terminalOk s) := by
  have hlen2 : ¬ (s.card_number.length < 15) := by omega
  have key : ¬ terminalOk s → tryBody db selfId ts s = Outcome.gateway authFailedResult 401 := by
    intro hok
    unfold tryBody
    simp [hdup, htn, htp, hch, hsim, hlen2, hok]
  constructor
  · intro hok
    have ht := key hok
    refine ⟨ht, ?_, rfl, ?_⟩
    · unfold actionTestTransaction
      rw [ht]
      rfl
    · unfold actionTestTransaction
      rw [ht]
      rfl
  · intro hsucc
    by_cases hok : terminalOk s
    · exact hok
    · exfalso
      have ht := key hok
      have hfail : (actionTestTransaction db selfId ts s).1.status = Status.failed := by
        unfold actionTestTransaction
        rw [ht]
        rfl
      rw [hfail] at hsucc
      exact Status.noConfusion hsucc

/-- C9 witness: the auth-failure branch at the concrete wrong-credential
record. -/
theorem auth_requires_exact_credentials_wit :
    tryBody [] 1 "2026-10-12 09:00:00" rC9 = Outcome.gateway authFailedResult 401 ∧
    (actionTestTransaction [] 1 "2026-10-12 09:00:00" rC9).1.status = Status.failed ∧
    authFailedResult.code = "101" ∧
    (actionTestTransaction [] 1 "2026-10-12 09:00:00" rC9).1.result =
      "Transaction Failed: Authentication Failed: Invalid Terminal ID or Password" :=
  (auth_requires_exact_credentials [] 1 "2026-10-12 09:00:00" rC9 (by decide) (by decide)
    (by decide) (by decide) (by decide) (by decide)).1 (by decide)

/-- A submission with a raw card string of length 3 (< 15) but an amount
over the simulated credit limit. -/
def rC10a : Txn :=
  { name := "TRX-010A", terminal_number := "0882016016", terminal_password := "Z0882016016",
    card_number := "123", expiry_date := "12/30", cvv := "123",
    cardholder_name := "John Doe", amount := 6000, transaction_type := TxnType.sale,
    result := "", status := Status.draft }

/-- A 13-digit card entered WITH spaces: 16 raw characters, 13 digits after
stripping, so the Validator accepts it and the raw-length check misses it. -/
def rC10b : Txn :=
  { name := "TRX-010B", terminal_number := "0882016016", terminal_password := "Z0882016016",
    card_number := "1234 5678 9012 3", expiry_date := "12/30", cvv := "123",
    cardholder_name := "John Doe", amount := 100, transaction_type := TxnType.sale,
    result := "", status := Status.draft }

/-- C10 counterexample, two parts.  (a) Not every raw-length-<15 submission
yields the code-106 response: `rC10a` (card "123", amount 6000) is caught
by the credit-limit simulation first and fails with code 206.  (b) A
validated 13-digit card CAN succeed: `rC10b` enters its 13 digits with
spaces, giving raw length 16, and the pipeline approves it. -/
theorem short_card_claim_cx :
    rC10a.card_number.length < 15 ∧
    tryBody [] 1 "2026-10-12 09:00:00" rC10a = Outcome.gateway insufficientFundsResult 400 ∧
    insufficientFundsResult.code = "206" ∧
    validate rC10b 2026 10 = Except.ok () ∧
    (stripSpaces rC10b.card_number).length = 13 ∧
    (actionTestTransaction [] 2 "2026-10-12 09:00:00" rC10b).1.status = Status.success := by
  decide

/-- C10 (amended): for every submission that passes the duplicate guard,
the required-field checks and the simulation checks, a raw `card_number`
(spaces included, no stripping) of length < 15 is answered with the
code-106 Invalid Card Format exchange and status Failed — even though the
Validator accepts any card of space-stripped length 13-19, e.g. a 13-digit
card; hence a 13/14-digit card entered without spaces can never succeed,
while the same digits entered with spaces (raw length at least 15) can. -/
theorem short_card_rejected (db : List DbRec) (selfId : Nat) (ts : String) (s : Txn)
    (hdup : checkDuplicate db selfId s.name = false)
    (htn : s.terminal_number ≠ "") (htp : s.terminal_password ≠ "")
    (hch : s.cardholder_name ≠ "")
    (hsim : simulateCardValidation s = none)
    (hlen : s.card_number.length < 15) :
    tryBody db selfId ts s = Outcome.gateway invalidCardResult 400 ∧
    (actionTestTransaction db selfId ts s).1.status = Status.failed ∧
    invalidCardResult.code = "106" ∧
    (actionTestTransaction db selfId ts s).1.result = "Transaction Failed: Invalid Card Format" ∧
    checkCardNumber "1234567890123" = Except.ok () := by
  have ht : tryBody db selfId ts s = Outcome.gateway invalidCardResult 400 := by
    unfold tryBody
    simp [hdup, htn, htp, hch, hsim, hlen]
  refine ⟨ht, ?_, rfl, ?_, by decide⟩
  · unfold actionTestTransaction
    rw [ht]
    rfl
  · unfold actionTestTransaction
    rw [ht]
    rfl

/-- A short-card record that reaches the card-length check (amount within
all simulated limits). -/
def rC10w : Txn :=
  { name := "TRX-010W", terminal_number := "0882016016", terminal_password := "Z0882016016",
    card_number := "123", expiry_date := "12/30", cvv := "123",
    cardholder_name := "John Doe", amount := 100, transaction_type := TxnType.sale,
    result := "", status := Status.draft }

/-- C10 witness: the amended statement at the concrete short-card record. -/
theorem short_card_rejected_wit :
    tryBody [] 1 "2026-10-12 09:00:00" rC10w = Outcome.gateway invalidCardResult 400 ∧
    (actionTestTransaction [] 1 "2026-10-12 09:00:00" rC10w).1.status = Status.failed ∧
    invalidCardResult.code = "106" ∧
    (actionTestTransaction [] 1 "2026-10-12 09:00:00" rC10w).1.result =
      "Transaction Failed: Invalid Card Format" ∧
    checkCardNumber "1234567890123" = Except.ok () :=
  short_card_rejected [] 1 "2026-10-12 09:00:00" rC10w (by decide) (by decide) (by decide)
    (by decide) (by decide) (by decide)

/-- Helper for C8: on the character level, the source's expiry check
accepts exactly what the spec-side conjunction accepts. -/
theorem expiryCharsAgree (l : List Char) (cy cm : Nat) :
    checkExpiryChars l cy cm = Except.ok () ↔ expiryAcceptChars l cy cm = true := by
  rcases l with _ | ⟨a, _ | ⟨b, _ | ⟨s, _ | ⟨c, _ | ⟨d, _ | ⟨f, rest⟩⟩⟩⟩⟩⟩ <;>
    simp only [checkExpiryChars, expiryAcceptChars] <;>
    try simp
  split_ifs with h1 h2 h3 <;> simp_all <;> omega

/-- C8 counterexample: the raw string " 12/30" (leading space) is NOT
exactly two digits, a slash, two digits — yet the code accepts it, because
`_check_expiry_date` strips surrounding whitespace before matching.  So
acceptance is not an iff with the exact format of the string as given. -/
theorem expiry_accepts_untrimmed_cx :
    checkExpiryDate " 12/30" 2026 10 = Except.ok () ∧
    expirySpecFormat " 12/30" = false := by
  decide

/-- C8 (amended): after stripping surrounding whitespace, an expiry string
is accepted iff it is exactly two digits, a slash, two digits, with month
in [1,12] and resolved year 2000+YY such that (year, month) is not
strictly before the current (year, month); "13/25" is rejected with the
invalid-month error, an expiry equal to the current month/year (10/26 at
2026-10) is accepted, and one month in the past (09/26) is rejected as
expired. -/
theorem expiry_accept_iff :
    (∀ (e : String) (cy cm : Nat),
      checkExpiryDate e cy cm = Except.ok () ↔ expirySpecAccept (pyStrip e) cy cm = true) ∧
    checkExpiryDate "13/25" 2026 10 = Except.error "Month must be between 01 and 12." ∧
    checkExpiryDate "10/26" 2026 10 = Except.ok () ∧
    checkExpiryDate "09/26" 2026 10 = Except.error "Card has expired. Expiry date: 09/26" := by
  exact ⟨fun e cy cm => expiryCharsAgree (pyStrip e).toList cy cm, by decide, by decide, by decide⟩
